import Mathlib

/-!
# Verification of the OpenClaw Home Assistant integration core

Shallow embedding of the gateway API client (`custom_components/openclaw/api.py`),
the polling coordinator (`custom_components/openclaw/coordinator.py`), the
response extractor and the chat-history log
(`custom_components/openclaw/__init__.py`, `conversation.py`).

Python dynamic values arriving over the wire are modelled by the `Json`
inductive below (a tagged union of the shapes `json.loads` can produce,
including Python's non-standard `NaN`/`Infinity` extension).  Python runtime
exceptions that the source can raise while walking such values
(`AttributeError`, `TypeError`, `KeyError`) are modelled explicitly with
`PyRunError`; `None` is modelled with `Option`.  All definitions are total
and executable, so the absence of further exceptions in the source paths we
model is witnessed by totality.  Floating point rounding/overflow of parsed
number literals is not modelled: numbers are kept exact as
`mantissa * 10 ^ scale`, which is faithful for every property proved here
(only emptiness/zero-ness of values is ever inspected).
-/

set_option maxHeartbeats 1000000

/-- A JSON value as produced by Python's `json.loads`: `null`, booleans,
numbers (kept exact as `mantissa * 10 ^ scale`), strings, arrays, objects,
plus Python's `NaN` / `Infinity` / `-Infinity` extension. -/
inductive Json where
  | null : Json
  | bool (b : Bool) : Json
  | num (mantissa : Int) (scale : Int) : Json
  | nan : Json
  | infinity (neg : Bool) : Json
  | str (s : String) : Json
  | arr (items : List Json) : Json
  | obj (fields : List (String × Json)) : Json
deriving Repr, Inhabited

/-- Python `dict` lookup on an object's field list (first binding wins;
field lists built by the parser below never contain duplicate keys, matching
Python dicts). `none` models a missing key. -/
def dictLookup (fields : List (String × Json)) (key : String) : Option Json :=
  match fields with
  | [] => none
  | (k, v) :: rest => if k = key then some v else dictLookup rest key

/-- Python `key in dict`. -/
def dictContains (fields : List (String × Json)) (key : String) : Bool :=
  (dictLookup fields key).isSome

/-- Python `dict[key] = value`: replace in place if the key exists
(keeping its position, as Python dicts do), else append. -/
def objInsert (fields : List (String × Json)) (key : String) (v : Json) :
    List (String × Json) :=
  match fields with
  | [] => [(key, v)]
  | (k, v') :: rest =>
      if k = key then (k, v) :: rest else (k, v') :: objInsert rest key v

/-- Python truthiness of a JSON value (`bool(x)`): `None`, `False`, zero,
`""`, `[]`, `{}` are falsy; everything else (including `nan`/`inf`) truthy. -/
def pyTruthy : Json → Bool
  | .null => false
  | .bool b => b
  | .num m _ => m ≠ 0
  | .nan => true
  | .infinity _ => true
  | .str s => s ≠ ""
  | .arr items => ¬items.isEmpty
  | .obj fields => ¬fields.isEmpty

/-- The whitespace set of Python's `str.strip()` (characters for which
`str.isspace()` holds). -/
def pyIsSpace (c : Char) : Bool :=
  let n := c.toNat
  (9 ≤ n && n ≤ 13) || (28 ≤ n && n ≤ 31) || n == 32 || n == 0x85 ||
  n == 0xA0 || n == 0x1680 || (0x2000 ≤ n && n ≤ 0x200A) || n == 0x2028 ||
  n == 0x2029 || n == 0x202F || n == 0x205F || n == 0x3000

/-- Python `str.strip()`: drop leading and trailing whitespace. -/
def pyStrip (s : String) : String :=
  String.mk
    (((s.toList.dropWhile pyIsSpace).reverse.dropWhile pyIsSpace).reverse)

/-- Python `"\n".join(parts)`. -/
def joinNL : List String → String
  | [] => ""
  | [p] => p
  | p :: rest => p ++ "\n" ++ joinNL rest

/-- Python truthiness of a `str | None` value (`if extracted:`). -/
def pyTruthyStr : Option String → Bool
  | some t => t ≠ ""
  | none => false

/-- The fixed priority order of well-known field names tried by the
response extractor (`__init__.py` lines 619-629, identical tuple in
`conversation.py`). -/
def priorityKeys : List String :=
  ["output_text", "text", "content", "message", "response", "answer",
   "choices", "output", "delta"]

/-- `_extract_text_recursive` from `__init__.py` lines 599-643, with an
explicit fuel argument standing for the call stack.  The source bounds the
recursion by `if depth > 8: return None` and every recursive call passes
`depth + 1`, so a stack of `(9 - depth).toNat + 1` frames is exactly enough:
the fuel-exhaustion fallbacks (the `arr`/`obj` rows of the final catch-all)
are unreachable through `extract_text_recursive` below, which supplies that
much fuel.  Non-`str`/`list`/`dict` values fall through every `isinstance`
check in the source and return `None`: the catch-all row. -/
def extractTextAux (fuel : Nat) (value : Json) (depth : Int) : Option String :=
  if depth > 8 then none
  else
    match fuel, value with
    | _, .str s =>
        let text := pyStrip s
        if text = "" then none else some text
    | Nat.succ f, .arr items =>
        let results := items.map (fun item => extractTextAux f item (depth + 1))
        let parts := results.filterMap (fun e => if pyTruthyStr e then e else none)
        if parts = [] then none else some (joinNL parts)
    | Nat.succ f, .obj fields =>
        let prio := priorityKeys.filterMap (fun key =>
          if dictContains fields key then
            let e := extractTextAux f ((dictLookup fields key).getD .null) (depth + 1)
            if pyTruthyStr e then e else none
          else none)
        match prio with
        | r :: _ => some r
        | [] =>
            let vals := fields.map (fun kv => extractTextAux f kv.2 (depth + 1))
            match vals.filterMap (fun e => if pyTruthyStr e then e else none) with
            | r :: _ => some r
            | [] => none
    | _, _ => none

/-- `_extract_text_recursive(value, depth)` (module level, `__init__.py`
lines 599-643), instantiated with sufficient fuel. -/
def extract_text_recursive (value : Json) (depth : Int := 0) : Option String :=
  extractTextAux ((9 - depth).toNat + 1) value depth

/-- The character-identical `_extract_text_recursive` method of the
conversation agent (`conversation.py` lines 220-264). -/
def conversationExtractTextAux (fuel : Nat) (value : Json) (depth : Int) :
    Option String :=
  if depth > 8 then none
  else
    match fuel, value with
    | _, .str s =>
        let text := pyStrip s
        if text = "" then none else some text
    | Nat.succ f, .arr items =>
        let results := items.map (fun item => conversationExtractTextAux f item (depth + 1))
        let parts := results.filterMap (fun e => if pyTruthyStr e then e else none)
        if parts = [] then none else some (joinNL parts)
    | Nat.succ f, .obj fields =>
        let prio := priorityKeys.filterMap (fun key =>
          if dictContains fields key then
            let e := conversationExtractTextAux f ((dictLookup fields key).getD .null) (depth + 1)
            if pyTruthyStr e then e else none
          else none)
        match prio with
        | r :: _ => some r
        | [] =>
            let vals := fields.map (fun kv => conversationExtractTextAux f kv.2 (depth + 1))
            match vals.filterMap (fun e => if pyTruthyStr e then e else none) with
            | r :: _ => some r
            | [] => none
    | _, _ => none

/-- `OpenClawConversationEntity._extract_text_recursive` from
`conversation.py` lines 220-264. -/
def conversation_extract_text_recursive (value : Json) (depth : Int := 0) :
    Option String :=
  conversationExtractTextAux ((9 - depth).toNat + 1) value depth

/-! ## JSON parsing (`json.loads`)

A recursive-descent parser for the grammar accepted by Python's `json.loads`
(strict mode, which is what `api.py` uses): JSON values plus the `NaN`,
`Infinity`, `-Infinity` extension; object keys deduplicated last-value-wins;
no trailing commas; `\uXXXX` escapes with surrogate-pair combination;
unescaped control characters rejected.  Fuel is structural so that concrete
parses reduce by `rfl`; `jsonLoads` supplies fuel that a simple counting
argument shows sufficient (at most two fuel units per input character). -/

/-- The whitespace skipped by Python's `json` scanner (` \t\n\r` only). -/
def skipJsonWs (cs : List Char) : List Char :=
  cs.dropWhile (fun c => c == ' ' || c == '\t' || c == '\n' || c == '\r')

/-- Value of a hex digit, `none` for a non-hex character. -/
def hexDigitVal (c : Char) : Option Nat :=
  if '0' ≤ c ∧ c ≤ '9' then some (c.toNat - 48)
  else if 'a' ≤ c ∧ c ≤ 'f' then some (c.toNat - 87)
  else if 'A' ≤ c ∧ c ≤ 'F' then some (c.toNat - 55)
  else none

/-- Four hex digits to a code unit. -/
def hex4 (a b c d : Char) : Option Nat :=
  match hexDigitVal a, hexDigitVal b, hexDigitVal c, hexDigitVal d with
  | some x, some y, some z, some w => some (((x * 16 + y) * 16 + z) * 16 + w)
  | _, _, _, _ => none

/-- Body of a JSON string literal after the opening quote, decoded to a
list of UTF-16-style code units: each `\uXXXX` escape contributes its raw
value, every other (escaped or plain) character its code point.  Returns the
units and the input remaining after the closing quote; unescaped control
characters and invalid escapes are rejected as in Python's strict mode. -/
def parseStringUnits : List Char → Option (List Nat × List Char)
  | [] => none
  | '"' :: rest => some ([], rest)
  | '\\' :: esc =>
    match esc with
    | '"' :: r => (parseStringUnits r).map (fun p => (34 :: p.1, p.2))
    | '\\' :: r => (parseStringUnits r).map (fun p => (92 :: p.1, p.2))
    | '/' :: r => (parseStringUnits r).map (fun p => (47 :: p.1, p.2))
    | 'b' :: r => (parseStringUnits r).map (fun p => (8 :: p.1, p.2))
    | 'f' :: r => (parseStringUnits r).map (fun p => (12 :: p.1, p.2))
    | 'n' :: r => (parseStringUnits r).map (fun p => (10 :: p.1, p.2))
    | 'r' :: r => (parseStringUnits r).map (fun p => (13 :: p.1, p.2))
    | 't' :: r => (parseStringUnits r).map (fun p => (9 :: p.1, p.2))
    | 'u' :: a :: b :: c :: d :: r =>
      match hex4 a b c d with
      | some n => (parseStringUnits r).map (fun p => (n :: p.1, p.2))
      | none => none
    | _ => none
  | c :: rest =>
    if c.toNat < 32 then none
    else (parseStringUnits rest).map (fun p => (c.toNat :: p.1, p.2))

/-- Combine adjacent high/low surrogate code units into one code point, as
Python's string decoder does for `\uXXXX` escape pairs. -/
def combineSurrogates : List Nat → List Nat
  | [] => []
  | [n] => [n]
  | n :: m :: rest =>
    if (0xD800 ≤ n ∧ n ≤ 0xDBFF) ∧ (0xDC00 ≤ m ∧ m ≤ 0xDFFF) then
      (0x10000 + (n - 0xD800) * 0x400 + (m - 0xDC00)) :: combineSurrogates rest
    else n :: combineSurrogates (m :: rest)

/-- Decoded characters of a JSON string literal body.  A lone surrogate
(which Lean's `Char` cannot hold, unlike a Python `str`) decodes to
`Char.ofNat`'s fallback — no claim below exercises that corner. -/
def parseStringChars (cs : List Char) : Option (List Char × List Char) :=
  (parseStringUnits cs).map (fun p => ((combineSurrogates p.1).map Char.ofNat, p.2))

/-- Decimal value of a digit run. -/
def digitsToNat (ds : List Char) : Nat :=
  ds.foldl (fun acc c => acc * 10 + (c.toNat - 48)) 0

/-- A number literal per Python's `json` `NUMBER_RE`:
`(-?(?:0|[1-9]\d*))(\.\d+)?([eE][-+]?\d+)?`.  An unmatched trailing `.` or
exponent marker is left unconsumed, exactly as a regex non-match leaves it
(the surrounding context then fails on the leftover, as Python does). -/
def parseNumber (cs : List Char) : Option (Json × List Char) :=
  let signed := match cs with
    | '-' :: t => (true, t)
    | _ => (false, cs)
  let neg := signed.1
  match signed.2 with
  | c :: t =>
    if c = '0' ∨ (c.isDigit = true) then
      let intPart : List Char × List Char :=
        if c = '0' then ([c], t)
        else
          let sp := t.span Char.isDigit
          (c :: sp.1, sp.2)
      let intDs := intPart.1
      let rest1 := intPart.2
      let fracPart : List Char × List Char :=
        match rest1 with
        | '.' :: t2 =>
          match t2.span Char.isDigit with
          | ([], _) => ([], rest1)
          | (fs, r) => (fs, r)
        | _ => ([], rest1)
      let fracDs := fracPart.1
      let rest2 := fracPart.2
      let expPart : Int × List Char :=
        match rest2 with
        | e :: t2 =>
          if e = 'e' ∨ e = 'E' then
            let signed2 : Int × List Char := match t2 with
              | '+' :: u => (1, u)
              | '-' :: u => (-1, u)
              | _ => (1, t2)
            match signed2.2.span Char.isDigit with
            | ([], _) => (0, rest2)
            | (es, r) => (signed2.1 * (digitsToNat es : Int), r)
          else (0, rest2)
        | [] => (0, rest2)
      let mantissaNat : Nat := digitsToNat (intDs ++ fracDs)
      let mantissa : Int := if neg then -(mantissaNat : Int) else (mantissaNat : Int)
      some (.num mantissa (expPart.1 - (fracDs.length : Int)), expPart.2)
    else none
  | [] => none

/-- What the single-function parser is currently parsing. -/
inductive JMode where
  | value
  | arrRest
  | objRest

/-- Result of one parser step. -/
inductive JOut where
  | val (j : Json)
  | elems (l : List Json)
  | members (l : List (String × Json))

/-- The recursive-descent core.  `arrRest` parses `value (',' value)* ']'`,
`objRest` parses `'"'key'"' ':' value (',' ...)* '\x7d'`; whitespace
handling mirrors Python's scanner.  Fuel only ever runs out on inputs the
supplied budget in `jsonLoads` cannot exhaust. -/
def jparse : Nat → JMode → List Char → Option (JOut × List Char)
  | 0, _, _ => none
  | Nat.succ f, .value, cs =>
    match skipJsonWs cs with
    | '\x7b' :: t =>
      match skipJsonWs t with
      | '\x7d' :: t2 => some (.val (.obj []), t2)
      | t2 =>
        match jparse f .objRest t2 with
        | some (.members ms, rest) =>
          some (.val (.obj (ms.foldl (fun acc kv => objInsert acc kv.1 kv.2) [])), rest)
        | _ => none
    | '[' :: t =>
      match skipJsonWs t with
      | ']' :: t2 => some (.val (.arr []), t2)
      | t2 =>
        match jparse f .arrRest t2 with
        | some (.elems l, rest) => some (.val (.arr l), rest)
        | _ => none
    | '"' :: t =>
      (parseStringChars t).map (fun p => (.val (.str (String.mk p.1)), p.2))
    | 'n' :: 'u' :: 'l' :: 'l' :: t => some (.val .null, t)
    | 't' :: 'r' :: 'u' :: 'e' :: t => some (.val (.bool true), t)
    | 'f' :: 'a' :: 'l' :: 's' :: 'e' :: t => some (.val (.bool false), t)
    | 'N' :: 'a' :: 'N' :: t => some (.val .nan, t)
    | 'I' :: 'n' :: 'f' :: 'i' :: 'n' :: 'i' :: 't' :: 'y' :: t =>
      some (.val (.infinity false), t)
    | '-' :: 'I' :: 'n' :: 'f' :: 'i' :: 'n' :: 'i' :: 't' :: 'y' :: t =>
      some (.val (.infinity true), t)
    | rest => (parseNumber rest).map (fun p => (.val p.1, p.2))
  | Nat.succ f, .arrRest, cs =>
    match jparse f .value cs with
    | some (.val v, rest) =>
      match skipJsonWs rest with
      | ',' :: t =>
        match jparse f .arrRest t with
        | some (.elems l, r2) => some (.elems (v :: l), r2)
        | _ => none
      | ']' :: t => some (.elems [v], t)
      | _ => none
    | _ => none
  | Nat.succ f, .objRest, cs =>
    match cs with
    | '"' :: t =>
      match parseStringChars t with
      | some (key, r1) =>
        match skipJsonWs r1 with
        | ':' :: r2 =>
          match jparse f .value r2 with
          | some (.val v, r3) =>
            match skipJsonWs r3 with
            | ',' :: r4 =>
              match jparse f .objRest (skipJsonWs r4) with
              | some (.members ms, r5) =>
                some (.members ((String.mk key, v) :: ms), r5)
              | _ => none
            | '\x7d' :: r4 => some (.members [(String.mk key, v)], r4)
            | _ => none
          | _ => none
        | _ => none
      | none => none
    | _ => none

/-- Python `json.loads`: parse a complete JSON document, allowing only
surrounding whitespace; `none` models `json.JSONDecodeError`. -/
def jsonLoads (s : String) : Option Json :=
  let cs := s.toList
  match jparse (2 * cs.length + 4) .value cs with
  | some (.val v, rest) => if (skipJsonWs rest).isEmpty then some v else none
  | _ => none

/-! ## Transport client response classification (`api.py`)

Each operation's response handling (the body of its `async with ... as resp`
block) classifies the HTTP response into the error taxonomy of `api.py`:
`OpenClawAuthError`, `OpenClawApiError`, or proceeding normally.  Connection
level failures (`OpenClawConnectionError`) happen before any response
exists, so they are outside these per-response functions; diagnostic
message strings are not modelled, only the raised class. -/

/-- An HTTP response as seen by the response-handling code: status code,
`resp.content_type or ""`, and the body text. -/
structure HttpResponse where
  status : Nat
  contentType : String
  body : String
deriving Repr, DecidableEq

/-- Python `needle in hay` on strings (substring test). -/
def listContainsInfix (needle : List Char) : List Char → Bool
  | [] => needle.isEmpty
  | c :: rest => needle.isPrefixOf (c :: rest) || listContainsInfix needle rest

/-- Python `needle in hay` for strings. -/
def strContains (hay needle : String) : Bool :=
  listContainsInfix needle.toList hay.toList

/-- Outcome of an operation's response handling. `ok` carries the body the
subsequent `resp.json()` call would parse. -/
inductive RequestOutcome where
  | ok (body : String)
  | authError
  | apiError
deriving Repr, DecidableEq

/-- `_request` response handling (`api.py` lines 143-164), used by
`async_get_models` (listModels): 401 and 403 raise `OpenClawAuthError`,
other `>= 400` raise `OpenClawApiError`, a content type not containing
"json" raises `OpenClawApiError`, otherwise the JSON body is returned. -/
def request_response_outcome (r : HttpResponse) : RequestOutcome :=
  if r.status = 401 then .authError
  else if r.status = 403 then .authError
  else if 400 ≤ r.status then .apiError
  else if strContains r.contentType "json" = false then .apiError
  else .ok r.body

/-- `async_send_message` response handling (`api.py` lines 245-250):
only 401 raises `OpenClawAuthError`; every other `>= 400` (including 403)
raises `OpenClawApiError`. -/
def send_message_response_outcome (r : HttpResponse) : RequestOutcome :=
  if r.status = 401 then .authError
  else if 400 ≤ r.status then .apiError
  else .ok r.body

/-- `async_stream_message` response handling (`api.py` lines 310-314),
identical status policy to `async_send_message`. -/
def stream_message_response_outcome (r : HttpResponse) : RequestOutcome :=
  if r.status = 401 then .authError
  else if 400 ≤ r.status then .apiError
  else .ok r.body

/-- `async_invoke_tool` response handling (`api.py` lines 463-475): 401
raises `OpenClawAuthError`, other `>= 400` raise `OpenClawApiError`, then a
non-JSON content type raises `OpenClawApiError`. -/
def invoke_tool_response_outcome (r : HttpResponse) : RequestOutcome :=
  if r.status = 401 then .authError
  else if 400 ≤ r.status then .apiError
  else if strContains r.contentType "json" = false then .apiError
  else .ok r.body

/-- Outcome of `async_check_connection` (probeApiReady). `success` models
`return True`. -/
inductive ProbeOutcome where
  | success
  | authError
  | apiError
deriving Repr, DecidableEq

/-- `async_check_connection` response handling (`api.py` lines 375-392):
`resp.status in (401, 403)` raises `OpenClawAuthError`; then a content type
not containing "json" raises `OpenClawApiError`; any remaining response
(any status) returns `True`. -/
def check_connection_outcome (r : HttpResponse) : ProbeOutcome :=
  if r.status = 401 ∨ r.status = 403 then .authError
  else if strContains r.contentType "json" = false then .apiError
  else .success

/-- `async_check_alive` response handling (`api.py` line 419):
`return resp.status < 500`. -/
def check_alive_result (r : HttpResponse) : Bool :=
  r.status < 500

/-! ## SSE stream parsing (`async_stream_message`, `api.py` lines 316-335)

The `async for line in resp.content` loop is modelled as a function over
the list of received lines.  `except json.JSONDecodeError` only covers the
`json.loads` call, so a frame that parses but has an unexpected shape can
raise an uncaught `AttributeError`/`TypeError`/`KeyError`, which aborts the
generator: that is the `aborted` result. -/

/-- Python `s.startswith(pre)`. -/
def pyStartsWith (s pre : String) : Bool :=
  pre.toList.isPrefixOf s.toList

/-- A Python runtime exception raised while navigating a parsed chunk. -/
inductive PyRunError where
  | attributeError
  | typeError
  | keyError
deriving Repr, DecidableEq

/-- Python `x[0]` on a JSON value: first element of a list, first character
of a string, `KeyError` on a (string-keyed) dict, `TypeError` otherwise. -/
def pyIndex0 : Json → Except PyRunError Json
  | .arr (x :: _) => .ok x
  | .arr [] => .error .typeError
  | .str s =>
    match s.toList with
    | c :: _ => .ok (.str (String.mk [c]))
    | [] => .error .typeError
  | .obj _ => .error .keyError
  | _ => .error .typeError

/-- The per-frame chunk navigation of `async_stream_message`:
`chunk.get("choices", [])`, truthiness test, `choices[0].get("delta", {})`,
`delta.get("content")`, `if content:`.  `.ok (some c)` means `yield c`;
`.ok none` means the frame is skipped; `.error` is an uncaught exception. -/
def stream_chunk_content (chunk : Json) : Except PyRunError (Option Json) :=
  match chunk with
  | .obj fields =>
    let choices := (dictLookup fields "choices").getD (.arr [])
    if pyTruthy choices then
      match pyIndex0 choices with
      | .error e => .error e
      | .ok c0 =>
        match c0 with
        | .obj cf =>
          let delta := (dictLookup cf "delta").getD (.obj [])
          match delta with
          | .obj df =>
            match dictLookup df "content" with
            | none => .ok none
            | some content => .ok (if pyTruthy content then some content else none)
          | _ => .error .attributeError
        | _ => .error .attributeError
    else .ok none
  | _ => .error .attributeError

/-- The observable behaviour of the SSE loop: either normal termination
(`[DONE]`, or the line stream ending) or an uncaught exception, in both
cases together with the deltas yielded before that point. -/
inductive StreamResult where
  | terminated (yielded : List Json)
  | aborted (yielded : List Json) (err : PyRunError)
deriving Repr

/-- Prepend one yielded delta to a stream result. -/
def consYield (c : Json) : StreamResult → StreamResult
  | .terminated ys => .terminated (c :: ys)
  | .aborted ys e => .aborted (c :: ys) e

/-- The deltas yielded by a stream run. -/
def StreamResult.yielded : StreamResult → List Json
  | .terminated ys => ys
  | .aborted ys _ => ys

/-- The SSE line loop of `async_stream_message` (`api.py` lines 317-335):
strip each line; skip empty lines and lines without the `"data: "` prefix;
stop at the literal `[DONE]` payload; skip frames whose payload fails JSON
parsing (`except json.JSONDecodeError`); navigate parsed frames with
`stream_chunk_content`, yielding truthy contents. -/
def async_stream_message_loop : List String → StreamResult
  | [] => .terminated []
  | line :: rest =>
    let decoded := pyStrip line
    if decoded = "" ∨ pyStartsWith decoded "data: " = false then
      async_stream_message_loop rest
    else
      let dataStr := decoded.drop 6
      if dataStr = "[DONE]" then .terminated []
      else
        match jsonLoads dataStr with
        | none => async_stream_message_loop rest
        | some chunk =>
          match stream_chunk_content chunk with
          | .error e => .aborted [] e
          | .ok none => async_stream_message_loop rest
          | .ok (some content) => consYield content (async_stream_message_loop rest)

/-! ## Chat history (`__init__.py` lines 88, 764-776) -/

/-- A chat log entry as built by `_append_chat_history`:
`{"role": ..., "content": ..., "timestamp": datetime.now(utc).isoformat()}`. -/
structure ChatMessage where
  role : String
  content : String
  timestamp : String
deriving Repr, DecidableEq

/-- `_MAX_CHAT_HISTORY` (`__init__.py` line 88). -/
def MAX_CHAT_HISTORY : Nat := 200

/-- `_append_chat_history` acting on one session's history list
(`__init__.py` lines 764-776): append the entry, then
`del history[:-_MAX_CHAT_HISTORY]` when over the cap, i.e. keep only the
last `_MAX_CHAT_HISTORY` entries. -/
def append_chat_history (history : List ChatMessage)
    (role content timestamp : String) : List ChatMessage :=
  let history := history ++ [⟨role, content, timestamp⟩]
  if history.length > MAX_CHAT_HISTORY then
    history.drop (history.length - MAX_CHAT_HISTORY)
  else history

/-! ## Polling coordinator (`coordinator.py`)

`datetime` values are opaque here (`Timestamp`); the refresh callbacks
registered in `hass.data[DOMAIN]` are modelled by the list of the boolean
results they would return, in iteration order; the three network calls a
tick can make are modelled by their outcomes.  The exception classes form a
hierarchy (`OpenClawAuthError` and `OpenClawConnectionError` both derive
from `OpenClawApiError`), so in `_async_update_data`:
`async_check_alive` can only raise the connection error; the model-fetch
`except OpenClawAuthError` arm is checked before `except OpenClawApiError`,
which also catches connection errors; the sessions-fetch
`except OpenClawApiError` catches every client error. -/

/-- Opaque stand-in for a `datetime` value. -/
abbrev Timestamp := Int

/-- `self._last_tool_state` (`coordinator.py` lines 71-78). -/
structure ToolState where
  name : Option String
  status : Option String
  durationMs : Option Int
  invokedAt : Option Timestamp
  error : Option String
  resultPreview : Option String
deriving Repr, DecidableEq

/-- `self._model_cache` once populated (`coordinator.py` lines 146-150):
`{"model": current.get("id", "unknown"), "provider": current.get("owned_by"),
"context_window": current.get("context_window")}`.  An `Option` field models
a `.get` that returned `None`. -/
structure CacheEntry where
  model : Json
  provider : Option Json
  contextWindow : Option Json
deriving Repr

/-- The status snapshot dict: the 16 keys assembled by `_offline_data` and
updated by the rest of the tick.  `none` models Python `None`. -/
structure Snapshot where
  status : String
  connected : Bool
  sessionCount : Nat
  sessions : List Json
  model : Option Json
  lastActivity : Option Timestamp
  gatewayVersion : Option Json
  uptime : Option Json
  provider : Option Json
  contextWindow : Option Json
  lastToolName : Option String
  lastToolStatus : Option String
  lastToolDurationMs : Option Int
  lastToolInvokedAt : Option Timestamp
  lastToolError : Option String
  lastToolResultPreview : Option String
deriving Repr

/-- The coordinator's mutable state: `_last_activity`, `_model_cache`
(`none` models the initial empty dict), `_available_models`,
`_consecutive_failures`, `_last_tool_state`, and the published
`self.data` (`none` until the first publish). -/
structure CoordState where
  lastActivity : Option Timestamp
  modelCache : Option CacheEntry
  availableModels : List Json
  consecutiveFailures : Nat
  lastTool : ToolState
  published : Option Snapshot
deriving Repr

/-- The state set up by `OpenClawCoordinator.__init__`
(`coordinator.py` lines 54-78). -/
def initialCoordState : CoordState :=
  { lastActivity := none
    modelCache := none
    availableModels := []
    consecutiveFailures := 0
    lastTool := ⟨none, none, none, none, none, none⟩
    published := none }

/-- `_offline_data` (`coordinator.py` lines 80-99). -/
def offline_data (s : CoordState) : Snapshot :=
  { status := "offline"
    connected := false
    sessionCount := 0
    sessions := []
    model := s.modelCache.map CacheEntry.model
    lastActivity := s.lastActivity
    gatewayVersion := none
    uptime := none
    provider := s.modelCache.bind CacheEntry.provider
    contextWindow := s.modelCache.bind CacheEntry.contextWindow
    lastToolName := s.lastTool.name
    lastToolStatus := s.lastTool.status
    lastToolDurationMs := s.lastTool.durationMs
    lastToolInvokedAt := s.lastTool.invokedAt
    lastToolError := s.lastTool.error
    lastToolResultPreview := s.lastTool.resultPreview }

/-- `data.update(self._model_cache)` (`coordinator.py` line 184): a no-op
for the initial empty cache, otherwise overwrite the three cached keys. -/
def withModelCache (d : Snapshot) : Option CacheEntry → Snapshot
  | none => d
  | some e =>
    { d with model := some e.model, provider := e.provider,
             contextWindow := e.contextWindow }

/-- `data.update(self._last_tool_state)` / `current.update(...)`
(`coordinator.py` lines 185, 230): overwrite the six last-tool keys. -/
def withToolState (d : Snapshot) (t : ToolState) : Snapshot :=
  { d with lastToolName := t.name
           lastToolStatus := t.status
           lastToolDurationMs := t.durationMs
           lastToolInvokedAt := t.invokedAt
           lastToolError := t.error
           lastToolResultPreview := t.resultPreview }

/-- A log record emitted during a tick, tagged with its severity and call
site. -/
inductive LogEvent where
  | debugUnreachable (attempt : Nat)
  | warnUnreachable (attempt : Nat)
  | warnAuthFailed
  | infoTokenRefreshed
  | debugNoRefreshCallback
deriving Repr, DecidableEq

/-- `_try_refresh_token` (`coordinator.py` lines 188-197): call each
registered refresh callback in turn until one returns `True`; returns the
number of callbacks invoked and the log records emitted.  `hooks` lists the
results the registered callbacks would return, in iteration order. -/
def try_refresh_token : List Bool → Nat × List LogEvent
  | [] => (0, [.debugNoRefreshCallback])
  | b :: rest =>
    if b then (1, [.infoTokenRefreshed])
    else
      let r := try_refresh_token rest
      (r.1 + 1, r.2)

/-- Outcome of `async_check_alive` as observed by the tick. -/
inductive AliveOutcome where
  | ok (alive : Bool)
  | connError
deriving Repr, DecidableEq

/-- Outcome of `async_get_models` as observed by the tick: a parsed body,
an `OpenClawAuthError`, or any other `OpenClawApiError` (which includes
connection errors, both being caught by the second `except` arm). -/
inductive ModelsOutcome where
  | ok (resp : Json)
  | authErr
  | otherErr
deriving Repr

/-- Outcome of the best-effort `async_invoke_tool("sessions_list", ...)`
call: a parsed body, or any `OpenClawApiError` (the whole taxonomy). -/
inductive ToolOutcome where
  | ok (resp : Json)
  | failure
deriving Repr

/-- Python `for m in models` over a JSON value: list elements, characters
of a string, keys of a dict; `TypeError` otherwise. -/
def pyIterate : Json → Except PyRunError (List Json)
  | .arr items => .ok items
  | .str s => .ok (s.toList.map (fun c => .str (String.mk [c])))
  | .obj fields => .ok (fields.map (fun kv => .str kv.1))
  | _ => .error .typeError

/-- `[m.get("id") for m in models if m.get("id")]`
(`coordinator.py` lines 151-153): each element must be a dict
(`AttributeError` otherwise); collect the truthy `id` values. -/
def collectIds : List Json → Except PyRunError (List Json)
  | [] => .ok []
  | m :: rest =>
    match m with
    | .obj f =>
      match collectIds rest with
      | .error e => .error e
      | .ok ids =>
        match dictLookup f "id" with
        | some v => if pyTruthy v then .ok (v :: ids) else .ok ids
        | none => .ok ids
    | _ => .error .attributeError

/-- Result of the best-effort model step: the updated coordinator state,
the log records and refresh-callback invocations it produced, and the
uncaught exception if one escaped (taking with it the mutations already
applied). -/
structure ModelStep where
  state : CoordState
  logs : List LogEvent
  refreshCalls : Nat
  err : Option PyRunError

/-- The best-effort model refresh (`coordinator.py` lines 141-159):
on success parse `models_resp.get("data", [])`, cache the first model and
the available ids; on `OpenClawAuthError` warn and run
`_try_refresh_token`; on any other `OpenClawApiError` silently skip.
The `.ok` branch mirrors Python evaluation order: `self._model_cache` is
assigned before the `self._available_models` list comprehension runs, so an
exception inside the comprehension leaves the new cache in place. -/
def models_step (s : CoordState) (hooks : List Bool) :
    ModelsOutcome → ModelStep
  | .authErr =>
    let r := try_refresh_token hooks
    ⟨s, .warnAuthFailed :: r.2, r.1, none⟩
  | .otherErr => ⟨s, [], 0, none⟩
  | .ok resp =>
    match resp with
    | .obj rf =>
      let models := (dictLookup rf "data").getD (.arr [])
      if pyTruthy models then
        match pyIndex0 models with
        | .error e => ⟨s, [], 0, some e⟩
        | .ok current =>
          match current with
          | .obj cf =>
            let cache := some (CacheEntry.mk
              ((dictLookup cf "id").getD (.str "unknown"))
              (dictLookup cf "owned_by")
              (dictLookup cf "context_window"))
            let s1 := { s with modelCache := cache }
            match pyIterate models with
            | .error e => ⟨s1, [], 0, some e⟩
            | .ok ms =>
              match collectIds ms with
              | .error e => ⟨s1, [], 0, some e⟩
              | .ok ids => ⟨{ s1 with availableModels := ids }, [], 0, none⟩
          | _ => ⟨s, [], 0, some .attributeError⟩
      else ⟨s, [], 0, none⟩
    | _ => ⟨s, [], 0, some .attributeError⟩

/-- Python `a or b` on optional JSON values (`None` and falsy values pass
through to the right operand). -/
def pyOrOpt (a b : Option Json) : Option Json :=
  match a with
  | some v => if pyTruthy v then some v else b
  | none => b

/-- `True` iff the value is a Python dict (`isinstance(item, dict)`). -/
def isObjJson : Json → Bool
  | .obj _ => true
  | _ => false

/-- The best-effort sessions enumeration (`coordinator.py` lines 161-182):
extract a list of session dicts from the tool response and, only when it is
non-empty, store it with its length; any `OpenClawApiError` skips silently.
This step is total: every navigation is guarded by `isinstance` checks. -/
def sessions_step (d : Snapshot) : ToolOutcome → Snapshot
  | .failure => d
  | .ok resp =>
    let result : Option Json :=
      match resp with
      | .obj rf => dictLookup rf "result"
      | _ => none
    let sessions : List Json :=
      match result with
      | some (.arr items) => items.filter isObjJson
      | some (.obj rf) =>
        let candidates := pyOrOpt (pyOrOpt (dictLookup rf "sessions")
          (dictLookup rf "items")) (dictLookup rf "data")
        match candidates with
        | some (.arr items) => items.filter isObjJson
        | _ => []
      | _ => []
    if sessions.isEmpty then d
    else { d with sessions := sessions, sessionCount := sessions.length }

/-- What one call of `_async_update_data` does: either return a snapshot
(which `DataUpdateCoordinator` then publishes as `self.data`) or let an
exception escape (in which case the previously published data stays). -/
inductive TickOutcome where
  | published (state : CoordState) (snap : Snapshot) (logs : List LogEvent)
      (refreshCalls : Nat)
  | raised (state : CoordState) (err : PyRunError) (logs : List LogEvent)
      (refreshCalls : Nat)
deriving Repr

/-- Coordinator state after the tick. -/
def TickOutcome.state : TickOutcome → CoordState
  | .published st _ _ _ => st
  | .raised st _ _ _ => st

/-- Log records emitted by the tick. -/
def TickOutcome.logsOf : TickOutcome → List LogEvent
  | .published _ _ logs _ => logs
  | .raised _ _ logs _ => logs

/-- Refresh-callback invocations made by the tick. -/
def TickOutcome.refreshCallsOf : TickOutcome → Nat
  | .published _ _ _ n => n
  | .raised _ _ _ n => n

/-- `_async_update_data` (`coordinator.py` lines 101-186), one poll tick.
`alive`, `models`, `tool` are the outcomes of the three client calls the
tick can make (later ones are irrelevant when an earlier step returns);
`hooks` are the registered refresh callbacks' results. -/
def async_update_data (s : CoordState) (alive : AliveOutcome)
    (models : ModelsOutcome) (tool : ToolOutcome) (hooks : List Bool) :
    TickOutcome :=
  let data := offline_data s
  match alive with
  | .connError =>
    let cnt := s.consecutiveFailures + 1
    let logs :=
      if cnt ≤ 3 then [LogEvent.debugUnreachable cnt]
      else if cnt = 4 then [LogEvent.warnUnreachable cnt]
      else []
    .published { s with consecutiveFailures := cnt, published := some data }
      data logs 0
  | .ok false => .published { s with published := some data } data [] 0
  | .ok true =>
    let data := { data with status := "online", connected := true,
                            gatewayVersion := none, uptime := none,
                            sessionCount := 0, sessions := [],
                            lastActivity := s.lastActivity }
    let s := { s with consecutiveFailures := 0 }
    let ms := models_step s hooks models
    match ms.err with
    | some e => .raised ms.state e ms.logs ms.refreshCalls
    | none =>
      let s := ms.state
      let data := sessions_step data tool
      let data := withToolState (withModelCache data s.modelCache) s.lastTool
      .published { s with published := some data } data ms.logs ms.refreshCalls

/-- `record_tool_invocation` (`coordinator.py` lines 211-231): build the
new `_last_tool_state`, then synchronously publish
`dict(self.data or self._offline_data())` updated with it via
`async_set_updated_data` (which replaces `self.data` and notifies entities
immediately, without waiting for the next poll tick). -/
def record_tool_invocation (s : CoordState) (toolName : String) (ok : Bool)
    (durationMs : Int) (errorMessage : Option String)
    (resultPreview : Option String) (now : Timestamp) : CoordState :=
  let lt : ToolState :=
    ⟨some toolName, some (if ok then "ok" else "error"), some durationMs,
     some now, errorMessage, resultPreview⟩
  let s := { s with lastTool := lt }
  let base :=
    match s.published with
    | some d => d
    | none => offline_data s
  let current := withToolState base lt
  { s with published := some current }

/-- `update_last_activity` (`coordinator.py` lines 199-204). -/
def update_last_activity (s : CoordState) (now : Timestamp) : CoordState :=
  { s with lastActivity := some now }

/-! ## Helper lemmas -/

theorem withModelCache_connected (d : Snapshot) (c : Option CacheEntry) :
    (withModelCache d c).connected = d.connected := by
  cases c <;> rfl

theorem withModelCache_status (d : Snapshot) (c : Option CacheEntry) :
    (withModelCache d c).status = d.status := by
  cases c <;> rfl

theorem sessions_step_connected (d : Snapshot) (t : ToolOutcome) :
    (sessions_step d t).connected = d.connected := by
  cases t with
  | failure => rfl
  | ok resp => dsimp only [sessions_step]; split <;> rfl

theorem sessions_step_status (d : Snapshot) (t : ToolOutcome) :
    (sessions_step d t).status = d.status := by
  cases t with
  | failure => rfl
  | ok resp => dsimp only [sessions_step]; split <;> rfl

theorem append_chat_history_length (h : List ChatMessage) (r c t : String) :
    (append_chat_history h r c t).length = min (h.length + 1) 200 := by
  simp only [append_chat_history, MAX_CHAT_HISTORY]
  split
  · next hgt => simp at hgt ⊢; omega
  · next hle => simp at hle ⊢; omega

theorem foldl_append_chat_no_drop :
    ∀ (msgs acc : List ChatMessage), acc.length + msgs.length ≤ 200 →
      msgs.foldl (fun h m => append_chat_history h m.role m.content m.timestamp)
        acc = acc ++ msgs := by
  intro msgs
  induction msgs with
  | nil => intro acc _; simp
  | cons m ms ih =>
    intro acc hlen
    simp only [List.foldl_cons]
    have hstep : append_chat_history acc m.role m.content m.timestamp
        = acc ++ [m] := by
      simp only [append_chat_history, MAX_CHAT_HISTORY]
      have hm : ChatMessage.mk m.role m.content m.timestamp = m := rfl
      rw [hm, if_neg (by simp at hlen ⊢; omega)]
    rw [hstep, ih]
    · simp
    · simp at hlen ⊢; omega

theorem foldl_append_chat_le (msgs : List ChatMessage) :
    ∀ acc : List ChatMessage, acc.length ≤ 200 →
      (msgs.foldl (fun h m => append_chat_history h m.role m.content m.timestamp)
        acc).length ≤ 200 := by
  induction msgs with
  | nil => intro acc h; simpa using h
  | cons m ms ih =>
    intro acc h
    simp only [List.foldl_cons]
    exact ih _ (by rw [append_chat_history_length]; omega)

theorem dictLookup_mem {fields : List (String × Json)} {key : String} {v : Json}
    (h : dictLookup fields key = some v) : (key, v) ∈ fields := by
  induction fields with
  | nil => simp [dictLookup] at h
  | cons kv rest ih =>
    obtain ⟨k, v'⟩ := kv
    simp only [dictLookup] at h
    split at h
    · next heq => cases h; subst heq; exact List.mem_cons_self _ _
    · exact List.mem_cons_of_mem _ (ih h)

theorem dropWhile_head_false {p : Char → Bool} :
    ∀ {l : List Char} {x : Char} {xs : List Char},
      List.dropWhile p l = x :: xs → p x = false := by
  intro l
  induction l with
  | nil => intro x xs h; simp at h
  | cons c t ih =>
    intro x xs h
    rw [List.dropWhile_cons] at h
    split at h
    · exact ih h
    · next hp => cases h; simpa using hp

theorem toList_mk (l : List Char) : (String.mk l).toList = l := rfl

theorem any_of_strip_ne {s : String} (h : pyStrip s ≠ "") :
    (pyStrip s).toList.any (fun c => !pyIsSpace c) = true := by
  unfold pyStrip at h ⊢
  rw [toList_mk]
  set inner := (s.toList.dropWhile pyIsSpace).reverse with hinner
  cases heq : inner.dropWhile pyIsSpace with
  | nil =>
    exfalso; apply h
    rw [heq]; rfl
  | cons x xs =>
    have hx : pyIsSpace x = false := dropWhile_head_false heq
    rw [List.any_eq_true]
    exact ⟨x, by simp, by simp [hx]⟩

theorem strip_ne_of_any {s : String} :
    s.toList.any (fun c => !pyIsSpace c) = true → pyStrip s ≠ "" := by
  intro h he
  rw [List.any_eq_true] at h
  obtain ⟨c, hc, hcp⟩ := h
  unfold pyStrip at he
  have hnil : ((s.toList.dropWhile pyIsSpace).reverse.dropWhile pyIsSpace).reverse
      = [] := congrArg String.toList he
  rw [List.reverse_eq_nil_iff, List.dropWhile_eq_nil_iff] at hnil
  have hall : ∀ x ∈ s.toList.dropWhile pyIsSpace, pyIsSpace x = true := by
    intro x hx
    exact hnil x (List.mem_reverse.mpr hx)
  have := List.takeWhile_append_dropWhile (p := pyIsSpace) (l := s.toList)
  rw [← this] at hc
  have hnc : pyIsSpace c = false := by simpa using hcp
  rcases List.mem_append.mp hc with hc | hc
  · exact absurd (List.mem_takeWhile_imp hc) (by simp [hnc])
  · exact absurd (hall c hc) (by simp [hnc])

theorem joinNL_any (q : Char → Bool) :
    ∀ (parts : List String) (p : String), p ∈ parts →
      p.toList.any q = true → (joinNL parts).toList.any q = true := by
  intro parts
  induction parts with
  | nil => intro p hp _; simp at hp
  | cons p' rest ih =>
    intro p hp hq
    cases rest with
    | nil =>
      simp only [List.mem_singleton] at hp
      subst hp
      simpa [joinNL] using hq
    | cons r rs =>
      simp only [joinNL]
      have happ : ((p' ++ "\n" ++ joinNL (r :: rs))).toList
          = p'.toList ++ "\n".toList ++ (joinNL (r :: rs)).toList := rfl
      rw [happ, List.any_append, List.any_append]
      simp only [Bool.or_eq_true]
      rcases List.mem_cons.mp hp with h | h
      · subst h
        exact Or.inl (Or.inl hq)
      · exact Or.inr (ih p h hq)

theorem filterMap_truthy_eq {e : Option String} {p : String}
    (h : (if pyTruthyStr e then e else none) = some p) : e = some p := by
  split at h
  · exact h
  · simp at h

theorem extractTextAux_nonspace :
    ∀ (fuel : Nat) (v : Json) (depth : Int) (s : String),
      extractTextAux fuel v depth = some s →
      s.toList.any (fun c => !pyIsSpace c) = true := by
  intro fuel
  induction fuel with
  | zero =>
    intro v depth s h
    rw [extractTextAux.eq_def] at h
    split at h
    · simp at h
    · cases v with
      | str s' =>
        simp only at h
        split at h
        · simp at h
        · next hne =>
          cases h
          exact any_of_strip_ne hne
      | null => simp at h
      | bool b => simp at h
      | num m sc => simp at h
      | nan => simp at h
      | infinity n => simp at h
      | arr items => simp at h
      | obj fields => simp at h
  | succ f ih =>
    intro v depth s h
    rw [extractTextAux.eq_def] at h
    split at h
    · simp at h
    · cases v with
      | str s' =>
        simp only at h
        split at h
        · simp at h
        · next hne =>
          cases h
          exact any_of_strip_ne hne
      | arr items =>
        simp only at h
        split at h
        · simp at h
        · next hne =>
          cases h
          obtain ⟨p₀, tl, hpt⟩ := List.exists_cons_of_ne_nil hne
          have hp₀ : p₀ ∈ (items.map (fun item => extractTextAux f item (depth + 1))).filterMap
              (fun e => if pyTruthyStr e then e else none) := by
            rw [hpt]; exact List.mem_cons_self _ _
          obtain ⟨e, he, heq⟩ := List.mem_filterMap.mp hp₀
          have he' : e = some p₀ := filterMap_truthy_eq heq
          subst he'
          obtain ⟨item, _, hitem⟩ := List.mem_map.mp he
          exact joinNL_any _ _ p₀ (by rw [hpt]; exact List.mem_cons_self _ _)
            (ih item (depth + 1) p₀ hitem)
      | obj fields =>
        simp only at h
        split at h
        · next r l heq =>
          cases h
          have hr : s ∈ priorityKeys.filterMap (fun key =>
              if dictContains fields key then
                let e := extractTextAux f ((dictLookup fields key).getD .null) (depth + 1)
                if pyTruthyStr e then e else none
              else none) := by
            rw [heq]; exact List.mem_cons_self _ _
          obtain ⟨key, _, hkey⟩ := List.mem_filterMap.mp hr
          rw [if_pos] at hkey
          · exact ih _ (depth + 1) s (filterMap_truthy_eq hkey)
          · by_contra hc
            rw [if_neg hc] at hkey
            simp at hkey
        · next heq =>
          split at h
          · next r l heq2 =>
            cases h
            have hr : s ∈ (fields.map (fun kv => extractTextAux f kv.2 (depth + 1))).filterMap
                (fun e => if pyTruthyStr e then e else none) := by
              rw [heq2]; exact List.mem_cons_self _ _
            obtain ⟨e, he, heq3⟩ := List.mem_filterMap.mp hr
            have he' : e = some s := filterMap_truthy_eq heq3
            subst he'
            obtain ⟨kv, _, hkv⟩ := List.mem_map.mp he
            exact ih _ (depth + 1) s hkv
          · simp at h
      | null => simp at h
      | bool b => simp at h
      | num m sc => simp at h
      | nan => simp at h
      | infinity n => simp at h

/-- A JSON structure whose leaves are only empty or whitespace-only
strings (the hypothesis of the extractor's none-case in the spec). -/
inductive WsOnly : Json → Prop where
  | str : ∀ s, pyStrip s = "" → WsOnly (.str s)
  | arr : ∀ items, (∀ v ∈ items, WsOnly v) → WsOnly (.arr items)
  | obj : ∀ fields, (∀ kv ∈ fields, WsOnly kv.2) → WsOnly (.obj fields)

theorem extractTextAux_wsOnly :
    ∀ (fuel : Nat) (v : Json), WsOnly v → ∀ depth : Int,
      extractTextAux fuel v depth = none := by
  intro fuel
  induction fuel with
  | zero =>
    intro v hv depth
    rw [extractTextAux.eq_def]
    split
    · rfl
    · cases hv with
      | str s hs => simp only; rw [if_pos hs]
      | arr items hitems => rfl
      | obj fields hfields => rfl
  | succ f ih =>
    intro v hv depth
    rw [extractTextAux.eq_def]
    split
    · rfl
    · cases hv with
      | str s hs => simp only; rw [if_pos hs]
      | arr items hitems =>
        have hparts : (items.map (fun item => extractTextAux f item (depth + 1))).filterMap
            (fun e => if pyTruthyStr e then e else none) = [] := by
          rw [List.filterMap_eq_nil_iff]
          intro e he
          obtain ⟨item, hmem, hitem⟩ := List.mem_map.mp he
          rw [← hitem, ih item (hitems item hmem) (depth + 1)]
          rfl
        simp only [hparts]
        rfl
      | obj fields hfields =>
        have hprio : (priorityKeys.filterMap (fun key =>
            if dictContains fields key then
              let e := extractTextAux f ((dictLookup fields key).getD .null) (depth + 1)
              if pyTruthyStr e then e else none
            else none)) = [] := by
          rw [List.filterMap_eq_nil_iff]
          intro key _
          by_cases hk : dictContains fields key
          · rw [if_pos hk]
            cases hlk : dictLookup fields key with
            | none => simp [dictContains, hlk] at hk
            | some v' =>
              have hw : WsOnly v' := hfields (key, v') (dictLookup_mem hlk)
              simp only [hlk, Option.getD]
              rw [ih v' hw (depth + 1)]
              rfl
          · rw [if_neg hk]
        have hvals : ((fields.map (fun kv => extractTextAux f kv.2 (depth + 1))).filterMap
            (fun e => if pyTruthyStr e then e else none)) = [] := by
          rw [List.filterMap_eq_nil_iff]
          intro e he
          obtain ⟨kv, hmem, hkv⟩ := List.mem_map.mp he
          rw [← hkv, ih kv.2 (hfields kv hmem) (depth + 1)]
          rfl
        simp only [hprio, hvals]

theorem conversationExtractTextAux_eq :
    ∀ (fuel : Nat) (v : Json) (depth : Int),
      conversationExtractTextAux fuel v depth = extractTextAux fuel v depth := by
  intro fuel
  induction fuel with
  | zero =>
    intro v depth
    rw [conversationExtractTextAux.eq_def, extractTextAux.eq_def]
    cases v <;> rfl
  | succ f ih =>
    intro v depth
    rw [conversationExtractTextAux.eq_def, extractTextAux.eq_def]
    cases v <;> simp only [ih]

theorem consYield_yielded (c : Json) (r : StreamResult) :
    (consYield c r).yielded = c :: r.yielded := by
  cases r <;> rfl

theorem stream_chunk_content_truthy :
    ∀ (chunk c : Json), stream_chunk_content chunk = .ok (some c) →
      pyTruthy c = true := by
  intro chunk c h
  simp only [stream_chunk_content] at h
  repeat' split at h
  all_goals simp_all

/-- The spec's first synthetic SSE frame. -/
def sseLineA : String :=
  "data: \x7b\"choices\":[\x7b\"delta\":\x7b\"content\":\"A\"\x7d\x7d]\x7d"

/-- The spec's second synthetic SSE frame. -/
def sseLineB : String :=
  "data: \x7b\"choices\":[\x7b\"delta\":\x7b\"content\":\"B\"\x7d\x7d]\x7d"

/-- The SSE termination frame. -/
def sseLineDone : String := "data: [DONE]"

/-- An SSE frame whose delta content is the JSON number `123`. -/
def sseLineNum : String :=
  "data: \x7b\"choices\":[\x7b\"delta\":\x7b\"content\":123\x7d\x7d]\x7d"

/-- `True` iff the value is a Python `str`. -/
def isStrJson : Json → Bool
  | .str _ => true
  | _ => false

theorem async_stream_skip (line : String) (rest : List String)
    (h : pyStrip line = "" ∨ pyStartsWith (pyStrip line) "data: " = false) :
    async_stream_message_loop (line :: rest) = async_stream_message_loop rest := by
  simp only [async_stream_message_loop]
  rw [if_pos h]

theorem async_stream_done (line : String) (rest : List String)
    (hpre : pyStartsWith (pyStrip line) "data: " = true)
    (hdone : (pyStrip line).drop 6 = "[DONE]") :
    async_stream_message_loop (line :: rest) = .terminated [] := by
  have hne : ¬(pyStrip line = "" ∨ pyStartsWith (pyStrip line) "data: " = false) := by
    rintro (h | h)
    · rw [h] at hpre; exact absurd hpre (by decide)
    · rw [hpre] at h; simp at h
  simp only [async_stream_message_loop]
  rw [if_neg hne, if_pos hdone]

theorem async_stream_malformed (line : String) (rest : List String)
    (hpre : pyStartsWith (pyStrip line) "data: " = true)
    (hdone : (pyStrip line).drop 6 ≠ "[DONE]")
    (hparse : jsonLoads ((pyStrip line).drop 6) = none) :
    async_stream_message_loop (line :: rest) = async_stream_message_loop rest := by
  have hne : ¬(pyStrip line = "" ∨ pyStartsWith (pyStrip line) "data: " = false) := by
    rintro (h | h)
    · rw [h] at hpre; exact absurd hpre (by decide)
    · rw [hpre] at h; simp at h
  simp only [async_stream_message_loop]
  rw [if_neg hne, if_neg hdone, hparse]

theorem async_stream_truthy :
    ∀ (lines : List String) (v : Json),
      v ∈ (async_stream_message_loop lines).yielded → pyTruthy v = true := by
  intro lines
  induction lines with
  | nil =>
    intro v hv
    simp [async_stream_message_loop, StreamResult.yielded] at hv
  | cons line rest ih =>
    intro v hv
    simp only [async_stream_message_loop] at hv
    repeat' split at hv
    all_goals first
      | exact ih v hv
      | (simp [StreamResult.yielded] at hv; done)
      | (cases hres : async_stream_message_loop rest with
          | terminated ys =>
            rw [hres] at hv
            simp only [consYield] at hv
            rcases List.mem_cons.mp hv with h | h
            · subst h; exact stream_chunk_content_truthy _ _ (by assumption)
            · exact ih v (by simp only [hres, StreamResult.yielded]; exact h)
          | aborted ys e =>
            rw [hres] at hv
            simp only [consYield] at hv
            rcases List.mem_cons.mp hv with h | h
            · subst h; exact stream_chunk_content_truthy _ _ (by assumption)
            · exact ih v (by simp only [hres, StreamResult.yielded]; exact h))

/-! ## Claims -/

/-- C1 (amended).  The claim states that every client operation raises
`OpenClawAuthError` on both 401 and 403; the code does this only in the
shared `_request` helper (listModels) and in `async_check_connection`
(probeApiReady).  `async_send_message`, `async_stream_message` and
`async_invoke_tool` check only `status == 401` before the generic
`status >= 400` arm, so a 403 there raises `OpenClawApiError`.  Amended:
401 raises `OpenClawAuthError` on every operation; 403 raises
`OpenClawAuthError` on listModels/probeApiReady and `OpenClawApiError`
on sendMessage/streamMessage/invokeTool. -/
theorem C1_amended_auth_taxonomy (r : HttpResponse) :
    ((r.status = 401 ∨ r.status = 403) →
      request_response_outcome r = .authError ∧
      check_connection_outcome r = .authError) ∧
    (r.status = 401 →
      send_message_response_outcome r = .authError ∧
      stream_message_response_outcome r = .authError ∧
      invoke_tool_response_outcome r = .authError) ∧
    (r.status = 403 →
      send_message_response_outcome r = .apiError ∧
      stream_message_response_outcome r = .apiError ∧
      invoke_tool_response_outcome r = .apiError) := by
  refine ⟨?_, ?_, ?_⟩
  · rintro (h | h) <;>
      simp [request_response_outcome, check_connection_outcome, h]
  · intro h
    simp [send_message_response_outcome, stream_message_response_outcome,
      invoke_tool_response_outcome, h]
  · intro h
    simp [send_message_response_outcome, stream_message_response_outcome,
      invoke_tool_response_outcome, h]

/-- C1 counterexample: a 403 response to `async_send_message` raises
`OpenClawApiError`, not `OpenClawAuthError` as the claim requires. -/
theorem C1_counterexample :
    send_message_response_outcome ⟨403, "application/json", ""⟩ = .apiError ∧
    send_message_response_outcome ⟨403, "application/json", ""⟩ ≠ .authError := by
  decide

/-- C1 witness: concrete instances of the amended classification. -/
theorem C1_witness :
    request_response_outcome ⟨403, "text/html", "err"⟩ = .authError ∧
    send_message_response_outcome ⟨401, "application/json", ""⟩ = .authError :=
  ⟨((C1_amended_auth_taxonomy ⟨403, "text/html", "err"⟩).1 (Or.inr rfl)).1,
   ((C1_amended_auth_taxonomy ⟨401, "application/json", ""⟩).2.1 rfl).1⟩

/-- C2 (confirmed).  Starting from any coordinator state, three
consecutive ticks whose liveness check raises `OpenClawConnectionError`
each publish a snapshot with `connected = false`, `status = "offline"`,
and the `model` value cached before the failures began, and the model
cache itself is unchanged after the three ticks. -/
theorem C2_offline_degrade (s₀ : CoordState)
    (m₁ m₂ m₃ : ModelsOutcome) (t₁ t₂ t₃ : ToolOutcome)
    (h₁ h₂ h₃ : List Bool) :
    ∃ s₁ s₂ s₃ n₁ n₂ n₃ l₁ l₂ l₃,
      async_update_data s₀ .connError m₁ t₁ h₁ = .published s₁ n₁ l₁ 0 ∧
      async_update_data s₁ .connError m₂ t₂ h₂ = .published s₂ n₂ l₂ 0 ∧
      async_update_data s₂ .connError m₃ t₃ h₃ = .published s₃ n₃ l₃ 0 ∧
      (n₁.connected = false ∧ n₁.status = "offline" ∧
        n₁.model = s₀.modelCache.map CacheEntry.model) ∧
      (n₂.connected = false ∧ n₂.status = "offline" ∧
        n₂.model = s₀.modelCache.map CacheEntry.model) ∧
      (n₃.connected = false ∧ n₃.status = "offline" ∧
        n₃.model = s₀.modelCache.map CacheEntry.model) ∧
      s₃.modelCache = s₀.modelCache := by
  refine ⟨_, _, _, _, _, _, _, _, _, rfl, rfl, rfl, ?_, ?_, ?_, rfl⟩ <;>
    exact ⟨rfl, rfl, rfl⟩

/-- C3 (amended).  The concrete round trip yields exactly ["A", "B"] and
terminates; lines without the `data: ` prefix are skipped; a `[DONE]`
payload ends the stream; payloads that fail JSON parsing are skipped
without aborting; and every yielded element is truthy (so any yielded
string is non-empty).  The original claim's stronger assertion — that
every yielded element is a *string* — fails: the code yields any truthy
`content` value unchecked (see `C3_counterexample`). -/
theorem C3_stream_contract :
    async_stream_message_loop [sseLineA, sseLineB, sseLineDone]
      = .terminated [.str "A", .str "B"] ∧
    (∀ (line : String) (rest : List String),
      pyStrip line = "" ∨ pyStartsWith (pyStrip line) "data: " = false →
      async_stream_message_loop (line :: rest)
        = async_stream_message_loop rest) ∧
    (∀ (line : String) (rest : List String),
      pyStartsWith (pyStrip line) "data: " = true →
      (pyStrip line).drop 6 = "[DONE]" →
      async_stream_message_loop (line :: rest) = .terminated []) ∧
    (∀ (line : String) (rest : List String),
      pyStartsWith (pyStrip line) "data: " = true →
      (pyStrip line).drop 6 ≠ "[DONE]" →
      jsonLoads ((pyStrip line).drop 6) = none →
      async_stream_message_loop (line :: rest)
        = async_stream_message_loop rest) ∧
    (∀ (lines : List String) (v : Json),
      v ∈ (async_stream_message_loop lines).yielded → pyTruthy v = true) :=
  ⟨rfl, async_stream_skip, async_stream_done, async_stream_malformed,
    async_stream_truthy⟩

/-- C3 counterexample: an SSE frame whose delta content is the JSON
number `123` makes the stream yield a non-string element, refuting
"every yielded element is a non-empty delta string". -/
theorem C3_counterexample :
    async_stream_message_loop [sseLineNum] = .terminated [.num 123 0] ∧
    isStrJson (.num 123 0) = false :=
  ⟨rfl, rfl⟩

/-- C3 witness: concrete instances of the skip, termination and
malformed-frame clauses. -/
theorem C3_witness :
    async_stream_message_loop [": ping"] = async_stream_message_loop [] ∧
    async_stream_message_loop ["data: [DONE]", "data: oops"] = .terminated [] ∧
    async_stream_message_loop ["data: nonsense"] = async_stream_message_loop [] :=
  ⟨C3_stream_contract.2.1 ": ping" [] (Or.inr rfl),
   C3_stream_contract.2.2.1 "data: [DONE]" ["data: oops"] rfl rfl,
   C3_stream_contract.2.2.2.1 "data: nonsense" [] rfl (by decide) rfl⟩

/-- C4 (amended).  The claim says any JSON-content-typed response makes
`async_check_connection` return true whatever the status; but the code
checks `status in (401, 403)` *before* the content type, so a 401/403
raises `OpenClawAuthError` even with a JSON content type.  Amended: for
every status other than 401/403, a content type without "json" raises
`OpenClawApiError` and a JSON content type returns true; 401/403 raise
`OpenClawAuthError`. -/
theorem C4_probe_api_ready (r : HttpResponse)
    (h1 : r.status ≠ 401) (h2 : r.status ≠ 403) :
    (strContains r.contentType "json" = false →
      check_connection_outcome r = .apiError) ∧
    (strContains r.contentType "json" = true →
      check_connection_outcome r = .success) := by
  constructor <;> intro hc <;> simp [check_connection_outcome, h1, h2, hc]

/-- C4 counterexample: a 401 response with a JSON content type raises
`OpenClawAuthError` instead of returning true. -/
theorem C4_counterexample :
    check_connection_outcome ⟨401, "application/json", ""⟩ = .authError ∧
    check_connection_outcome ⟨401, "application/json", ""⟩ ≠ .success := by
  decide

/-- C4 witness: concrete instances of the amended contract. -/
theorem C4_witness :
    check_connection_outcome ⟨200, "text/html", ""⟩ = .apiError ∧
    check_connection_outcome ⟨400, "application/json", ""⟩ = .success :=
  ⟨(C4_probe_api_ready ⟨200, "text/html", ""⟩ (by decide) (by decide)).1
      (by decide),
   (C4_probe_api_ready ⟨400, "application/json", ""⟩ (by decide) (by decide)).2
      (by decide)⟩

/-- C5 (confirmed).  On a tick where the liveness check succeeds but
`async_get_models` raises `OpenClawAuthError`, the published snapshot has
`connected = true` and `status = "online"`, and with exactly one
registered refresh callback the credential-refresh hook is invoked
exactly once (the `1` in the `.published` outcome counts callback
invocations). -/
theorem C5_partial_success (s : CoordState) (t : ToolOutcome)
    (hooks : List Bool) (hlen : hooks.length = 1) :
    ∃ st snap logs,
      async_update_data s (.ok true) .authErr t hooks =
        .published st snap logs 1 ∧
      snap.connected = true ∧ snap.status = "online" := by
  obtain ⟨b, rfl⟩ : ∃ b, hooks = [b] := by
    match hooks, hlen with
    | [b], _ => exact ⟨b, rfl⟩
  cases b <;>
    exact ⟨_, _, _, rfl, by
        simp [withToolState, withModelCache_connected, sessions_step_connected], by
        simp [withToolState, withModelCache_status, sessions_step_status]⟩

/-- C5 witness: the partial-success law at the initial state with one
registered refresh callback. -/
theorem C5_witness :
    ∃ st snap logs,
      async_update_data initialCoordState (.ok true) .authErr .failure [true] =
        .published st snap logs 1 ∧
      snap.connected = true ∧ snap.status = "online" :=
  C5_partial_success initialCoordState .failure [true] rfl

/-- C6 (confirmed).  The extractor returns "hello" for both
`{"text": "hello"}` and `{"content": {"text": "hello"}}`, and returns
none for `{}`, for `[]`, and for every structure whose leaves are only
empty or whitespace-only strings. -/
theorem C6_extractor_priority :
    extract_text_recursive (.obj [("text", .str "hello")]) = some "hello" ∧
    extract_text_recursive (.obj [("content", .obj [("text", .str "hello")])])
      = some "hello" ∧
    extract_text_recursive (.obj []) = none ∧
    extract_text_recursive (.arr []) = none ∧
    (∀ (v : Json) (depth : Int), WsOnly v →
      extract_text_recursive v depth = none) :=
  ⟨rfl, rfl, rfl, rfl, fun _ depth h => extractTextAux_wsOnly _ _ h depth⟩

/-- C6 witness: the extractor returns none on a concrete structure built
only from empty and whitespace-only strings. -/
theorem C6_witness :
    extract_text_recursive (.arr [.str " ", .str "", .obj [("text", .str "\t")]]) 0
      = none :=
  C6_extractor_priority.2.2.2.2 _ 0 (by
    refine WsOnly.arr _ ?_
    intro v hv
    simp only [List.mem_cons, List.not_mem_nil, or_false] at hv
    rcases hv with h | h | h
    · subst h; exact WsOnly.str _ rfl
    · subst h; exact WsOnly.str _ rfl
    · subst h
      refine WsOnly.obj _ ?_
      intro kv hkv
      simp only [List.mem_singleton] at hkv
      subst hkv
      exact WsOnly.str _ rfl)

/-- C7 (amended).  On a tick whose liveness check raises
`OpenClawConnectionError`, the consecutive-failure counter is
incremented, a debug record is emitted for each of the first three
consecutive failures, and a warning record is emitted exactly on the
fourth; from the fifth consecutive failure onward *no* record is emitted
(the source's `elif self._consecutive_failures == 4` has no else), which
refutes the claim's "warning for the fourth and every subsequent
failure". -/
theorem C7_failure_logging (s : CoordState) (m : ModelsOutcome)
    (t : ToolOutcome) (hooks : List Bool) :
    (async_update_data s .connError m t hooks).state.consecutiveFailures =
      s.consecutiveFailures + 1 ∧
    (s.consecutiveFailures + 1 ≤ 3 →
      (async_update_data s .connError m t hooks).logsOf =
        [LogEvent.debugUnreachable (s.consecutiveFailures + 1)]) ∧
    (s.consecutiveFailures + 1 = 4 →
      (async_update_data s .connError m t hooks).logsOf =
        [LogEvent.warnUnreachable (s.consecutiveFailures + 1)]) ∧
    (5 ≤ s.consecutiveFailures + 1 →
      (async_update_data s .connError m t hooks).logsOf = []) ∧
    (async_update_data s .connError m t hooks).refreshCallsOf = 0 := by
  refine ⟨rfl, ?_, ?_, ?_, rfl⟩ <;> intro h <;>
    simp only [async_update_data, TickOutcome.logsOf]
  · rw [if_pos h]
  · rw [if_neg (by omega), if_pos h]
  · rw [if_neg (by omega), if_neg (by omega)]

/-- C7 counterexample: on the fifth consecutive failure (counter going
from 4 to 5) the tick emits no log record at all, though the claim
requires a warning. -/
theorem C7_counterexample :
    (async_update_data { initialCoordState with consecutiveFailures := 4 }
      .connError .otherErr .failure []).logsOf = [] ∧
    (async_update_data { initialCoordState with consecutiveFailures := 4 }
      .connError .otherErr .failure []).state.consecutiveFailures = 5 :=
  ⟨rfl, rfl⟩

/-- C7 witness: the first consecutive failure logs one debug record. -/
theorem C7_witness :
    (async_update_data initialCoordState .connError .otherErr .failure
      []).logsOf = [LogEvent.debugUnreachable 1] :=
  (C7_failure_logging initialCoordState .otherErr .failure []).2.1 (by decide)

/-- C8 (confirmed).  `record_tool_invocation` synchronously publishes a
snapshot equal to the previously published one except that exactly the
six last-tool fields are replaced by the given invocation's data; the
publish happens inside the call itself (via `async_set_updated_data`),
not on the next poll tick. -/
theorem C8_record_tool (s : CoordState) (d : Snapshot)
    (hd : s.published = some d)
    (toolName : String) (ok : Bool) (durationMs : Int)
    (errorMessage resultPreview : Option String) (now : Timestamp) :
    (record_tool_invocation s toolName ok durationMs errorMessage
        resultPreview now).published =
      some { d with
        lastToolName := some toolName
        lastToolStatus := some (if ok then "ok" else "error")
        lastToolDurationMs := some durationMs
        lastToolInvokedAt := some now
        lastToolError := errorMessage
        lastToolResultPreview := resultPreview } := by
  simp [record_tool_invocation, withToolState, hd]

/-- C8 witness: the spec's concrete invocation
`recordToolInvocation(tool="x", ok=false, durationMs=12, error="boom")`
applied to a state with a published snapshot. -/
theorem C8_witness :
    (record_tool_invocation
        { initialCoordState with
            published := some (offline_data initialCoordState) }
        "x" false 12 (some "boom") none 0).published =
      some { offline_data initialCoordState with
        lastToolName := some "x"
        lastToolStatus := some (if false then "ok" else "error")
        lastToolDurationMs := some 12
        lastToolInvokedAt := some 0
        lastToolError := some "boom"
        lastToolResultPreview := none } :=
  C8_record_tool _ _ rfl "x" false 12 (some "boom") none 0

/-- C9 (confirmed).  Appending 201 messages to an empty session history
leaves exactly the last 200 in order (the oldest is dropped), and no
sequence of appends ever grows the log beyond 200 entries. -/
theorem C9_chat_history_bound :
    (∀ msgs : List ChatMessage, msgs.length = 201 →
      msgs.foldl (fun h m => append_chat_history h m.role m.content m.timestamp)
        [] = msgs.drop 1) ∧
    (∀ msgs : List ChatMessage,
      (msgs.foldl (fun h m => append_chat_history h m.role m.content m.timestamp)
        []).length ≤ 200) := by
  constructor
  · intro msgs hlen
    have hsplit := List.take_append_drop 200 msgs
    have hdlen : (msgs.drop 200).length = 1 := by simp [hlen]
    obtain ⟨m, hm⟩ := List.length_eq_one.mp hdlen
    have htlen : (msgs.take 200).length = 200 := by simp [hlen]
    conv_lhs => rw [← hsplit]
    rw [List.foldl_append, foldl_append_chat_no_drop _ [] (by simp [htlen]), hm]
    simp only [List.foldl_cons, List.foldl_nil, List.nil_append]
    simp only [append_chat_history, MAX_CHAT_HISTORY]
    rw [if_pos (by simp [htlen])]
    have hlen2 : (msgs.take 200 ++ [m]).length = 201 := by simp [htlen]
    rw [hlen2]
    rw [List.drop_append_of_le_length (by omega)]
    conv_rhs => rw [← hsplit]
    rw [List.drop_append_of_le_length (by omega), hm]
  · intro msgs; exact foldl_append_chat_le msgs [] (by simp)

/-- C9 witness: a concrete run of 201 appends. -/
theorem C9_witness :
    ((List.range 201).map (fun i => ChatMessage.mk "user" (toString i) "t")).foldl
        (fun h m => append_chat_history h m.role m.content m.timestamp) []
      = ((List.range 201).map
          (fun i => ChatMessage.mk "user" (toString i) "t")).drop 1 :=
  C9_chat_history_bound.1 _ (by simp)

/-- C10 (confirmed).  For every JSON value and every starting depth the
extractor (a total function here, so it terminates and raises nothing)
returns none or a string that is neither empty nor whitespace-only, and
the conversation agent's character-identical copy computes the same
function. -/
theorem C10_extractor_safety (v : Json) (depth : Int) :
    (∀ s, extract_text_recursive v depth = some s →
      s ≠ "" ∧ pyStrip s ≠ "") ∧
    conversation_extract_text_recursive v depth
      = extract_text_recursive v depth := by
  constructor
  · intro s h
    have hany := extractTextAux_nonspace _ v depth s h
    constructor
    · intro he
      subst he
      simp at hany
    · exact strip_ne_of_any hany
  · exact conversationExtractTextAux_eq _ v depth

/-- C10 witness: a concrete extraction satisfying the guarantee. -/
theorem C10_witness :
    "hi" ≠ "" ∧ pyStrip "hi" ≠ "" :=
  (C10_extractor_safety (.str "hi") 0).1 "hi" rfl
